import Mathlib

/-!
Shallow embedding of the inspection-trigger orchestration core of
`src/main_window.py` (class `TrademarkDetectionWindow` and `CameraThread`),
together with proofs of the specification's testable properties.

Modelling conventions:
* The mutable statistics dictionary `detection_stats` plus the batch counters
  become the `Stats` structure.
* The voice alarm is modelled by a function `A : List String → Bool` telling,
  for each reasons list, whether `trigger_alarm` raises an exception on that
  call.  Every alarm invocation is recorded in an `alarms` output list in call
  order, whether or not it raises.
* Python exceptions that escape a handler are modelled by a `completed` flag:
  state mutations performed before the raising call are kept (they mutated
  `self` already), and `completed = false` records that the remaining
  statements of the handler did not run.
* GUI side effects that the claims mention (result label text, log lines, the
  detect-button enabled flag, status message) are carried explicitly; purely
  visual effects (pixmaps, styles) are elided.
-/

/-- Per-tag analysis dictionary of one detection record, as read by
`update_detection_results`: `analysis.get('overall_status', None)` and
`analysis.get('defect_reasons', [])`.  A missing key yields `none` / `[]`. -/
structure Analysis where
  overall_status : Option String
  defect_reasons : List String
deriving DecidableEq, Repr

/-- One detection record returned by the Detector; `result.get('analysis', {})`
(a missing analysis behaves as `⟨none, []⟩`). -/
structure DetectionRecord where
  analysis : Analysis
deriving DecidableEq, Repr

/-- The statistics state: the `detection_stats` dictionary entries used by the
aggregator plus `batch_current` and `batch_count` (lines 148-157). -/
structure Stats where
  total_detections : Nat
  ok_count : Nat
  ng_count : Nat
  batch_current : Nat
  batch_count : Nat
deriving DecidableEq, Repr

/-- Initial statistics set up in `__init__`: all counters zero. -/
def initStats : Stats :=
  { total_detections := 0, ok_count := 0, ng_count := 0
  , batch_current := 0, batch_count := 0 }

/-- One iteration of the deduplication loop of lines 598-600:
`if defect not in defects_only: defects_only.append(defect)`. -/
def dedupStep (acc : List String) (d : String) : List String :=
  if d ∈ acc then acc else acc ++ [d]

/-- The deduplication loop of lines 597-600: `for defect in defects: if defect
not in defects_only: defects_only.append(defect)`. -/
def dedupFirst (defects : List String) : List String :=
  defects.foldl dedupStep []

/-- The aggregate analysis computed in lines 578-604 for a non-empty result
list: collect each record's status and reasons, overall status is `"ng"` when
any collected status equals `"ng"` (`'ng' in status`), else `"ok"`; reasons are
deduplicated keeping first occurrences. -/
structure Analyze where
  overall_status : String
  defect_reasons : List String
deriving DecidableEq, Repr

/-- Lines 578-604 of `update_detection_results`. -/
def analyzeResults (results : List DetectionRecord) : Analyze :=
  let statusTemp := results.map (fun r => r.analysis.overall_status)
  let defects := results.flatMap (fun r => r.analysis.defect_reasons)
  let overall := if some "ng" ∈ statusTemp then "ng" else "ok"
  { overall_status := overall, defect_reasons := dedupFirst defects }

/-- Reasons passed to the batch-full alarm (line 612): "batch full". -/
def batchFullReasons : List String := ["本批次已满"]

/-- Fixed reasons synthesized when no records were detected (line 636):
"tag missing", "fastener missing". -/
def emptyResultReasons : List String := ["商标缺失", "魔术贴缺失"]

/-- Observable outcome of one `update_detection_results` call: the new
statistics, the `result_info` label text, the alarm invocations (in order,
whether or not they raised), the log lines, and whether the handler ran to
completion (reaching line 648) rather than aborting on an uncaught alarm
exception. -/
structure AggOutcome where
  stats : Stats
  result_text : String
  alarms : List (List String)
  logs : List String
  completed : Bool
deriving DecidableEq, Repr

/-- The `else` branch of lines 634-639: no records detected.  `ng_count` is
incremented and the label/log are written before the alarm call; that alarm
call is NOT wrapped in try/except, so if it raises, the handler's remaining
lines (642-648) do not run. -/
def emptyResultsBranch (A : List String → Bool) (s : Stats) : AggOutcome :=
  let s1 := { s with ng_count := s.ng_count + 1 }
  { stats := s1
  , result_text := "检测结果: ❌ 产品异常"
  , logs := ["❌ 检测完成 - 未检测到任何标签/魔术贴"]
  , alarms := [emptyResultReasons]
  , completed := !(A emptyResultReasons) }

/-- Function `update_detection_results` (lines 570-648).  `results` is the Python
argument: `none` models a `None` value and, like an empty list, fails the test
`if results and len(results) > 0`.  `A` tells which alarm calls raise. -/
def update_detection_results (A : List String → Bool) (s : Stats)
    (results : Option (List DetectionRecord)) : AggOutcome :=
  let s0 := { s with total_detections := s.total_detections + 1 }
  match results with
  | some (r :: rest) =>
      let analyze := analyzeResults (r :: rest)
      if analyze.overall_status = "ok" then
        -- lines 607-622; the batch-full alarm call sits in try/except, so a
        -- raising alarm is swallowed and the branch always completes
        let s1 := { s0 with ok_count := s0.ok_count + 1
                          , batch_current := s0.batch_current + 1 }
        if s1.batch_current = 20 then
          { stats := { s1 with batch_current := 0
                             , batch_count := s1.batch_count + 1 }
          , result_text := "检测结果: ✅ 产品正常"
          , alarms := [batchFullReasons]
          , logs := ["✅ 检测完成 - 产品状态：正常"]
          , completed := true }
        else
          { stats := s1
          , result_text := "检测结果: ✅ 产品正常"
          , alarms := []
          , logs := ["✅ 检测完成 - 产品状态：正常"]
          , completed := true }
      else
        -- lines 623-633; the alarm call at line 629 is NOT guarded: a raise
        -- skips the per-reason logs and lines 642-648
        let s1 := { s0 with ng_count := s0.ng_count + 1 }
        { stats := s1
        , result_text := "检测结果: ❌ 产品异常"
        , alarms := [analyze.defect_reasons]
        , logs := ["❌ 检测完成 - 产品状态：异常"] ++
            (if A analyze.defect_reasons then []
             else analyze.defect_reasons.map (fun d => "   ⚠️ 缺陷原因: " ++ d))
        , completed := !(A analyze.defect_reasons) }
  | _ => emptyResultsBranch A s0

/-- Folding a sequence of delivered inspection results through the aggregator,
keeping the statistics state. -/
def processResults (A : List String → Bool) (s : Stats)
    (inputs : List (Option (List DetectionRecord))) : Stats :=
  inputs.foldl (fun st r => (update_detection_results A st r).stats) s

/-! ### Events, detection workers and the control-context handler -/

/-- An opaque camera frame (`current_image`); its pixel content is irrelevant
to the coordination logic, only its identity. -/
structure Frame where
  id : Nat
deriving DecidableEq, Repr

/-- The two custom event classes posted back to the control context:
`UpdateResultEvent(image, results)` (image elided) and
`ErrorEvent(message)` (lines 27-39). -/
inductive DetEvent where
  | updateResult (results : Option (List DetectionRecord))
  | errorEvent (message : String)
deriving DecidableEq, Repr

/-- Window state touched by `customEvent`: the statistics, the detect-button
enabled flag and the status message. -/
structure WindowState where
  stats : Stats
  detect_btn_enabled : Bool
  status_message : String
deriving DecidableEq, Repr

/-- Result of handling one event on the control context. -/
structure EventOut where
  window : WindowState
  alarms : List (List String)
  logs : List String
deriving DecidableEq, Repr

/-- Method `customEvent` (lines 559-568).  An `UpdateResultEvent` runs
`update_detection_results`; its status texts and `detect_btn.setEnabled(True)`
(lines 646-648) only execute when that handler completes.  An `ErrorEvent`
logs the message, sets the status to failed, and re-enables the button. -/
def customEvent (A : List String → Bool) (w : WindowState) (e : DetEvent) :
    EventOut :=
  match e with
  | .updateResult results =>
      let o := update_detection_results A w.stats results
      { window := { stats := o.stats
                  , detect_btn_enabled :=
                      if o.completed then true else w.detect_btn_enabled
                  , status_message :=
                      if o.completed then "检测完成" else w.status_message }
      , alarms := o.alarms
      , logs := o.logs }
  | .errorEvent msg =>
      { window := { w with detect_btn_enabled := true
                         , status_message := "检测失败" }
      , alarms := []
      , logs := [msg] }

/-- Handle the (at most one) event posted by a worker; `none` means the worker
returned without posting anything, so the control context does nothing. -/
def handlePosted (A : List String → Bool) (w : WindowState) :
    Option DetEvent → EventOut
  | none => { window := w, alarms := [], logs := [] }
  | some e => customEvent A w e

/-- Method `perform_detection` (lines 539-557): the Detector call on the current
image, modelled as a fallible function `det` (`.error msg` is a raised
exception).  A failure is converted to an `ErrorEvent` rather than
propagating. -/
def perform_detection (img : Frame)
    (det : Frame → Except String (List DetectionRecord)) : DetEvent :=
  match det img with
  | .ok results => .updateResult (some results)
  | .error e => .errorEvent ("检测失败: " ++ e)

/-- The `_detect_once` worker of `trigger_sensor_detection` (lines 692-710):
if `current_image` is `None` it returns without posting any event; otherwise
it runs the Detector on a copy and posts a result or error event. -/
def trigger_sensor_detection (current_image : Option Frame)
    (det : Frame → Except String (List DetectionRecord)) : Option DetEvent :=
  match current_image with
  | none => none
  | some img =>
      match det img with
      | .ok results => some (.updateResult (some results))
      | .error e => some (.errorEvent ("光电感应触发检测失败: " ++ e))

/-- The `_detect_once` worker of `on_foot_signal` (lines 520-537); identical
to the sensor worker except for the error-message prefix. -/
def on_foot_signal (current_image : Option Frame)
    (det : Frame → Except String (List DetectionRecord)) : Option DetEvent :=
  match current_image with
  | none => none
  | some img =>
      match det img with
      | .ok results => some (.updateResult (some results))
      | .error e => some (.errorEvent ("脚踏触发检测失败: " ++ e))

/-! ### Sensor buffer and trigger arming -/

/-- State of the photoelectric-sensor trigger machinery: the arm flag
`detecting_enabled`, the `sensor_input` line-edit text (max length 2, and the
edit is enabled exactly when detection is armed), and whether the one-shot
500 ms auto-clear timer is pending. -/
structure SensorState where
  detecting_enabled : Bool
  buffer : String
  timer_active : Bool
deriving DecidableEq, Repr

/-- One character arriving at the `sensor_input` line edit.  `setMaxLength(2)`
(line 262) rejects input once two characters are present (no text change, so
no `textChanged` signal).  Otherwise the character is appended and
`on_sensor_input_changed` (lines 679-690) runs: it ignores everything while
disarmed; on the exact text `"01"` it triggers one detection request and
(re)starts the 500 ms auto-clear timer.  The returned `Nat` counts detection
requests emitted. -/
def feedChar (s : SensorState) (c : Char) : SensorState × Nat :=
  if s.buffer.length ≥ 2 then (s, 0)
  else
    let text := s.buffer.push c
    let s1 := { s with buffer := text }
    if !s1.detecting_enabled then (s1, 0)
    else if text = "01" then ({ s1 with timer_active := true }, 1)
    else (s1, 0)

/-- Feed a sequence of characters, accumulating emitted requests. -/
def feedChars (s : SensorState) (cs : List Char) : SensorState × Nat :=
  cs.foldl (fun p c => let q := feedChar p.1 c; (q.1, p.2 + q.2)) (s, 0)

/-- Expiry of the single-shot auto-clear timer: `clear_sensor_input`
(lines 712-716) clears the buffer only while the edit is enabled (i.e. while
armed).  Clearing fires `textChanged("")`, which never matches `"01"` and so
emits no request. -/
def timerFire (s : SensorState) : SensorState :=
  if s.timer_active then
    let s1 := { s with timer_active := false }
    if s1.detecting_enabled then { s1 with buffer := "" } else s1
  else s

/-- The arming branch of `start_detection` (lines 487-494): enable detection
and the input edit.  No request is emitted. -/
def arm (s : SensorState) : SensorState :=
  { s with detecting_enabled := true }

/-- The disarming branch of `start_detection` (lines 496-503): disable
detection, disable and clear the input edit.  The `clear()` fires
`textChanged("")`, but the handler returns at once since detection is already
disabled, so no request is emitted (the returned `Nat`). -/
def disarm (s : SensorState) : SensorState × Nat :=
  ({ detecting_enabled := false, buffer := "", timer_active := s.timer_active }, 0)

/-- The camera-mode toggle of `start_detection` (lines 486-504): arm when
idle, disarm when armed. -/
def start_detection_toggle (s : SensorState) : SensorState × Nat :=
  if !s.detecting_enabled then (arm s, 0) else disarm s

/-- Armed sensor state with an empty buffer. -/
def armedInit : SensorState :=
  { detecting_enabled := true, buffer := "", timer_active := false }

/-- Disarmed sensor state with an empty buffer. -/
def disarmedInit : SensorState :=
  { detecting_enabled := false, buffer := "", timer_active := false }

/-! ### Camera thread -/

/-- State of `CameraThread`: the `running` flag and the `cap` device handle
(`none` until the first `cv2.VideoCapture(0)` is constructed); a handle is
identified by a number so that replacing it is observable. -/
structure CameraState where
  running : Bool
  cap : Option Nat
deriving DecidableEq, Repr

/-- Method `CameraThread.start_camera` (lines 51-61): unconditionally constructs a
fresh `cv2.VideoCapture(0)` (the `handle` argument names the new object) and
stores it in `self.cap`; `opened` is what `isOpened()` reports.  When opened,
the running flag is set and `True` returned; otherwise `False` is returned —
in neither case does the call throw. -/
def start_camera (handle : Nat) (opened : Bool) (s : CameraState) :
    CameraState × Bool :=
  let s1 := { s with cap := some handle }
  if opened then ({ s1 with running := true }, true)
  else (s1, false)

/-- Method `CameraThread.stop_camera` (lines 63-69): clear the running flag and
release the device (the released handle object stays in `self.cap`). -/
def stop_camera (s : CameraState) : CameraState :=
  { s with running := false }

/-- Method `toggle_camera` (lines 439-444): start the camera only when the running
flag is clear, otherwise stop it. -/
def toggle_camera (handle : Nat) (opened : Bool) (s : CameraState) :
    CameraState :=
  if !s.running then (start_camera handle opened s).1
  else stop_camera s

/-! ### Helper lemmas about the deduplication loop -/

theorem dedupStep_foldl_shape (l : List String) :
    ∀ acc : List String, ∃ t, l.foldl dedupStep acc = acc ++ t ∧ t.Sublist l := by
  induction l with
  | nil => intro acc; exact ⟨[], by simp⟩
  | cons d ds ih =>
      intro acc
      by_cases hd : d ∈ acc
      · obtain ⟨t, ht, hsub⟩ := ih acc
        exact ⟨t, by simpa [List.foldl_cons, dedupStep, hd] using ht,
               hsub.cons d⟩
      · obtain ⟨t, ht, hsub⟩ := ih (acc ++ [d])
        refine ⟨d :: t, ?_, hsub.cons₂ d⟩
        simpa [List.foldl_cons, dedupStep, hd, List.append_assoc] using ht

theorem dedupStep_foldl_mem (l : List String) :
    ∀ (acc : List String) (x : String),
      x ∈ l.foldl dedupStep acc ↔ x ∈ acc ∨ x ∈ l := by
  induction l with
  | nil => intro acc x; simp
  | cons d ds ih =>
      intro acc x
      by_cases hd : d ∈ acc
      · rw [List.foldl_cons]
        simp only [dedupStep, if_pos hd, ih acc x, List.mem_cons]
        constructor
        · rintro (h | h)
          · exact Or.inl h
          · exact Or.inr (Or.inr h)
        · rintro (h | h | h)
          · exact Or.inl h
          · exact Or.inl (h ▸ hd)
          · exact Or.inr h
      · rw [List.foldl_cons]
        simp only [dedupStep, if_neg hd, ih (acc ++ [d]) x, List.mem_append,
          List.mem_singleton, List.mem_cons]
        tauto

theorem dedupStep_foldl_nodup (l : List String) :
    ∀ acc : List String, acc.Nodup → (l.foldl dedupStep acc).Nodup := by
  induction l with
  | nil => intro acc h; simpa using h
  | cons d ds ih =>
      intro acc h
      rw [List.foldl_cons]
      by_cases hd : d ∈ acc
      · simpa [dedupStep, hd] using ih acc h
      · have hstep : dedupStep acc d = acc ++ [d] := by simp [dedupStep, hd]
        rw [hstep]
        refine ih (acc ++ [d]) ?_
        simp [List.nodup_append, h, hd]

theorem dedupFirst_nodup (l : List String) : (dedupFirst l).Nodup :=
  dedupStep_foldl_nodup l [] List.nodup_nil

theorem dedupFirst_sublist (l : List String) : (dedupFirst l).Sublist l := by
  obtain ⟨t, ht, hsub⟩ := dedupStep_foldl_shape l []
  simpa [dedupFirst, ht] using hsub

theorem dedupFirst_mem (l : List String) (x : String) :
    x ∈ dedupFirst l ↔ x ∈ l := by
  simpa [dedupFirst] using dedupStep_foldl_mem l [] x

/-! ### Branch characterizations of `update_detection_results` -/

theorem update_none_eq (A : List String → Bool) (s : Stats) :
    update_detection_results A s none =
      emptyResultsBranch A { s with total_detections := s.total_detections + 1 } :=
  rfl

theorem update_some_nil_eq (A : List String → Bool) (s : Stats) :
    update_detection_results A s (some []) =
      emptyResultsBranch A { s with total_detections := s.total_detections + 1 } :=
  rfl

theorem update_cons_ok_roll (A : List String → Bool) (s : Stats)
    (a : DetectionRecord) (as : List DetectionRecord)
    (h1 : (analyzeResults (a :: as)).overall_status = "ok")
    (h2 : s.batch_current + 1 = 20) :
    update_detection_results A s (some (a :: as)) =
      { stats := { total_detections := s.total_detections + 1
                 , ok_count := s.ok_count + 1, ng_count := s.ng_count
                 , batch_current := 0, batch_count := s.batch_count + 1 }
      , result_text := "检测结果: ✅ 产品正常"
      , alarms := [batchFullReasons]
      , logs := ["✅ 检测完成 - 产品状态：正常"]
      , completed := true } := by
  simp [update_detection_results, h1, h2]

theorem update_cons_ok_noroll (A : List String → Bool) (s : Stats)
    (a : DetectionRecord) (as : List DetectionRecord)
    (h1 : (analyzeResults (a :: as)).overall_status = "ok")
    (h2 : s.batch_current + 1 ≠ 20) :
    update_detection_results A s (some (a :: as)) =
      { stats := { total_detections := s.total_detections + 1
                 , ok_count := s.ok_count + 1, ng_count := s.ng_count
                 , batch_current := s.batch_current + 1
                 , batch_count := s.batch_count }
      , result_text := "检测结果: ✅ 产品正常"
      , alarms := []
      , logs := ["✅ 检测完成 - 产品状态：正常"]
      , completed := true } := by
  simp [update_detection_results, h1, h2]

theorem update_cons_ng (A : List String → Bool) (s : Stats)
    (a : DetectionRecord) (as : List DetectionRecord)
    (h1 : (analyzeResults (a :: as)).overall_status ≠ "ok") :
    update_detection_results A s (some (a :: as)) =
      { stats := { total_detections := s.total_detections + 1
                 , ok_count := s.ok_count, ng_count := s.ng_count + 1
                 , batch_current := s.batch_current
                 , batch_count := s.batch_count }
      , result_text := "检测结果: ❌ 产品异常"
      , alarms := [(analyzeResults (a :: as)).defect_reasons]
      , logs := ["❌ 检测完成 - 产品状态：异常"] ++
          (if A (analyzeResults (a :: as)).defect_reasons then []
           else (analyzeResults (a :: as)).defect_reasons.map
             (fun d => "   ⚠️ 缺陷原因: " ++ d))
      , completed := !(A (analyzeResults (a :: as)).defect_reasons) } := by
  simp [update_detection_results, h1]

theorem update_counter_step (A : List String → Bool) (s : Stats)
    (r : Option (List DetectionRecord)) :
    (update_detection_results A s r).stats.total_detections = s.total_detections + 1
    ∧ (((update_detection_results A s r).stats.ok_count = s.ok_count + 1
        ∧ (update_detection_results A s r).stats.ng_count = s.ng_count)
       ∨ ((update_detection_results A s r).stats.ok_count = s.ok_count
        ∧ (update_detection_results A s r).stats.ng_count = s.ng_count + 1)) := by
  match r with
  | none =>
      rw [update_none_eq]
      exact ⟨rfl, Or.inr ⟨rfl, rfl⟩⟩
  | some [] =>
      rw [update_some_nil_eq]
      exact ⟨rfl, Or.inr ⟨rfl, rfl⟩⟩
  | some (a :: as) =>
      by_cases h1 : (analyzeResults (a :: as)).overall_status = "ok"
      · by_cases h2 : s.batch_current + 1 = 20
        · rw [update_cons_ok_roll A s a as h1 h2]
          exact ⟨rfl, Or.inl ⟨rfl, rfl⟩⟩
        · rw [update_cons_ok_noroll A s a as h1 h2]
          exact ⟨rfl, Or.inl ⟨rfl, rfl⟩⟩
      · rw [update_cons_ng A s a as h1]
        exact ⟨rfl, Or.inr ⟨rfl, rfl⟩⟩

theorem update_batch_le (A : List String → Bool) (s : Stats)
    (r : Option (List DetectionRecord)) (h : s.batch_current ≤ 19) :
    (update_detection_results A s r).stats.batch_current ≤ 19 := by
  match r with
  | none => rw [update_none_eq]; exact h
  | some [] => rw [update_some_nil_eq]; exact h
  | some (a :: as) =>
      by_cases h1 : (analyzeResults (a :: as)).overall_status = "ok"
      · by_cases h2 : s.batch_current + 1 = 20
        · rw [update_cons_ok_roll A s a as h1 h2]; exact Nat.zero_le _
        · rw [update_cons_ok_noroll A s a as h1 h2]; simp; omega
      · rw [update_cons_ng A s a as h1]; exact h

theorem processResults_counts (A : List String → Bool)
    (inputs : List (Option (List DetectionRecord))) :
    ∀ s : Stats,
      (processResults A s inputs).total_detections
          = s.total_detections + inputs.length
      ∧ (processResults A s inputs).ok_count + (processResults A s inputs).ng_count
          = s.ok_count + s.ng_count + inputs.length := by
  induction inputs with
  | nil => intro s; simp [processResults]
  | cons r rest ih =>
      intro s
      have step1 := (update_counter_step A s r).1
      have step2 := (update_counter_step A s r).2
      have ihs := ih (update_detection_results A s r).stats
      simp only [processResults, List.foldl_cons, List.length_cons] at ihs ⊢
      have htot := ihs.1
      have hsum := ihs.2
      constructor
      · omega
      · rcases step2 with ⟨hok, hng⟩ | ⟨hok, hng⟩ <;> omega

theorem processResults_batch_le (A : List String → Bool)
    (inputs : List (Option (List DetectionRecord))) :
    ∀ s : Stats, s.batch_current ≤ 19 →
      (processResults A s inputs).batch_current ≤ 19 := by
  induction inputs with
  | nil => intro s h; simpa [processResults] using h
  | cons r rest ih =>
      intro s h
      simp only [processResults, List.foldl_cons] at ih ⊢
      exact ih _ (update_batch_le A s r h)

/-! ### Claim theorems -/

/-- C1: for every sequence of N completed inspections delivered to
`update_detection_results`, afterwards `ok_count + ng_count = N =
total_detections`; moreover each single call increments `total_detections` by
exactly 1 and exactly one of `ok_count`/`ng_count` by exactly 1. -/
theorem c1_counters_invariant (A : List String → Bool)
    (inputs : List (Option (List DetectionRecord))) :
    (processResults A initStats inputs).ok_count
        + (processResults A initStats inputs).ng_count = inputs.length
    ∧ (processResults A initStats inputs).total_detections = inputs.length
    ∧ ∀ (s : Stats) (r : Option (List DetectionRecord)),
        (update_detection_results A s r).stats.total_detections
            = s.total_detections + 1
        ∧ (((update_detection_results A s r).stats.ok_count = s.ok_count + 1
            ∧ (update_detection_results A s r).stats.ng_count = s.ng_count)
           ∨ ((update_detection_results A s r).stats.ok_count = s.ok_count
            ∧ (update_detection_results A s r).stats.ng_count = s.ng_count + 1)) := by
  have h := processResults_counts A inputs initStats
  refine ⟨?_, ?_, fun s r => update_counter_step A s r⟩
  · simpa [initStats] using h.2
  · simpa [initStats] using h.1

/-- C2: `batch_current` stays in [0,19] after every aggregated inspection
(per step and along any sequence from the initial state); an ok inspection
from `batch_current = 19` resets it to 0, increments `batch_count` by exactly
1, and invokes the alarm once with the batch-full reason; an ok inspection
from `batch_current ≠ 19` just increments `batch_current` with no alarm; ng
and empty inspections never change `batch_current` or `batch_count`; in
particular from `batch_current = 19`, `batch_count = 0` one ok inspection
yields 0 and 1. -/
theorem c2_batch_rollover (A : List String → Bool) (s : Stats)
    (rs : List DetectionRecord) :
    (∀ r, s.batch_current ≤ 19 →
        (update_detection_results A s r).stats.batch_current ≤ 19)
    ∧ (∀ inputs, (processResults A initStats inputs).batch_current ≤ 19)
    ∧ (rs ≠ [] → (analyzeResults rs).overall_status = "ok" →
        (s.batch_current = 19 →
          (update_detection_results A s (some rs)).stats.batch_current = 0
          ∧ (update_detection_results A s (some rs)).stats.batch_count
              = s.batch_count + 1
          ∧ (update_detection_results A s (some rs)).alarms = [batchFullReasons])
        ∧ (s.batch_current ≠ 19 →
          (update_detection_results A s (some rs)).stats.batch_current
              = s.batch_current + 1
          ∧ (update_detection_results A s (some rs)).stats.batch_count
              = s.batch_count
          ∧ (update_detection_results A s (some rs)).alarms = []))
    ∧ (rs ≠ [] → (analyzeResults rs).overall_status ≠ "ok" →
        (update_detection_results A s (some rs)).stats.batch_current
            = s.batch_current
        ∧ (update_detection_results A s (some rs)).stats.batch_count
            = s.batch_count)
    ∧ ((update_detection_results A s none).stats.batch_current = s.batch_current
       ∧ (update_detection_results A s none).stats.batch_count = s.batch_count
       ∧ (update_detection_results A s (some [])).stats.batch_current
           = s.batch_current
       ∧ (update_detection_results A s (some [])).stats.batch_count
           = s.batch_count)
    ∧ (s.batch_current = 19 → s.batch_count = 0 → rs ≠ [] →
        (analyzeResults rs).overall_status = "ok" →
        (update_detection_results A s (some rs)).stats.batch_current = 0
        ∧ (update_detection_results A s (some rs)).stats.batch_count = 1) := by
  refine ⟨fun r h => update_batch_le A s r h,
          fun inputs => processResults_batch_le A inputs initStats (by norm_num [initStats]),
          ?_, ?_, ?_, ?_⟩
  · intro hne hok
    obtain ⟨a, as, rfl⟩ := List.exists_cons_of_ne_nil hne
    constructor
    · intro h19
      have h2 : s.batch_current + 1 = 20 := by omega
      rw [update_cons_ok_roll A s a as hok h2]
      exact ⟨rfl, rfl, rfl⟩
    · intro h19
      have h2 : s.batch_current + 1 ≠ 20 := by omega
      rw [update_cons_ok_noroll A s a as hok h2]
      exact ⟨rfl, rfl, rfl⟩
  · intro hne hng
    obtain ⟨a, as, rfl⟩ := List.exists_cons_of_ne_nil hne
    rw [update_cons_ng A s a as hng]
    exact ⟨rfl, rfl⟩
  · rw [update_none_eq, update_some_nil_eq]
    exact ⟨rfl, rfl, rfl, rfl⟩
  · intro h19 hc0 hne hok
    obtain ⟨a, as, rfl⟩ := List.exists_cons_of_ne_nil hne
    have h2 : s.batch_current + 1 = 20 := by omega
    rw [update_cons_ok_roll A s a as hok h2]
    exact ⟨rfl, by simp [hc0]⟩

/-- C2 witness: from `batch_current = 19`, `batch_count = 0`, one ok
inspection yields `batch_current = 0` and `batch_count = 1`. -/
theorem c2_batch_rollover_witness :
    (update_detection_results (fun _ => false) ⟨0, 0, 0, 19, 0⟩
        (some [⟨⟨some "ok", []⟩⟩])).stats.batch_current = 0
    ∧ (update_detection_results (fun _ => false) ⟨0, 0, 0, 19, 0⟩
        (some [⟨⟨some "ok", []⟩⟩])).stats.batch_count = 1 :=
  (c2_batch_rollover (fun _ => false) ⟨0, 0, 0, 19, 0⟩
      [⟨⟨some "ok", []⟩⟩]).2.2.2.2.2
    (by decide) (by decide) (by decide) (by decide)

/-- C3: an inspection whose record list is empty (or absent) is counted ng:
`ng_count` increments by 1, `ok_count` is unchanged, the verdict shown is ng,
and the alarm is invoked with exactly the two fixed reasons
"商标缺失" ("tag missing") and "魔术贴缺失" ("fastener missing"). -/
theorem c3_empty_results_ng (A : List String → Bool) (s : Stats) :
    ((update_detection_results A s none).stats.ng_count = s.ng_count + 1
     ∧ (update_detection_results A s none).stats.ok_count = s.ok_count
     ∧ (update_detection_results A s none).result_text = "检测结果: ❌ 产品异常"
     ∧ (update_detection_results A s none).alarms = [["商标缺失", "魔术贴缺失"]])
    ∧ ((update_detection_results A s (some [])).stats.ng_count = s.ng_count + 1
     ∧ (update_detection_results A s (some [])).stats.ok_count = s.ok_count
     ∧ (update_detection_results A s (some [])).result_text
         = "检测结果: ❌ 产品异常"
     ∧ (update_detection_results A s (some [])).alarms
         = [["商标缺失", "魔术贴缺失"]]) :=
  ⟨⟨rfl, rfl, rfl, rfl⟩, ⟨rfl, rfl, rfl, rfl⟩⟩

/-- C4 counterexample: while armed, feeding "0","1","0","1" in quick
succession (no auto-clear timer expiry in between) emits exactly ONE
detection request, not two as the claim states: after "01" is recognized the
buffer still holds "01" until the 500 ms timer fires, and the 2-character
limit rejects the further characters. -/
theorem c4_sensor_counterexample :
    (feedChars armedInit ['0', '1', '0', '1']).2 = 1
    ∧ (feedChars armedInit ['0', '1', '0', '1']).2 ≠ 2 := by decide

/-- C4 amended: while armed, "0","1" emits exactly one request; while
disarmed, "0","1" emits zero; while armed, "0","1","0","1" in quick
succession emits exactly ONE request (the full buffer rejects the extra
characters and no second "01" can form); a character arriving while the
buffer holds two characters is rejected outright; and if the 500 ms
auto-clear fires between the two pulses, the second "01" emits a second
request (two in total). -/
theorem c4_sensor_amended :
    (feedChars armedInit ['0', '1']).2 = 1
    ∧ (feedChars disarmedInit ['0', '1']).2 = 0
    ∧ (feedChars armedInit ['0', '1', '0', '1']).2 = 1
    ∧ (feedChars armedInit ['0', '1']).1.buffer = "01"
    ∧ feedChar (feedChars armedInit ['0', '1']).1 '0'
        = ((feedChars armedInit ['0', '1']).1, 0)
    ∧ (timerFire (feedChars armedInit ['0', '1']).1).buffer = ""
    ∧ (feedChars (timerFire (feedChars armedInit ['0', '1']).1) ['0', '1']).2
        = 1 := by decide

/-- C5 counterexample: in the ng-verdict case the alarm call of line 629 is
not wrapped in try/except, so with an alarm that raises, the handler does not
run to completion (lines 630-648 are skipped). -/
theorem c5_alarm_counterexample :
    (update_detection_results (fun _ => true) initStats
      (some [⟨⟨some "ng", ["标签不良"]⟩⟩])).completed = false := by decide

/-- C5 amended: only the batch-full alarm call is guarded by try/except: an
ok inspection always completes the handler, whatever the alarm does; in the
ng-verdict case `total_detections` and `ng_count` are incremented before the
alarm fires, but a raising alarm aborts the rest of the handler (it completes
only when the alarm does not raise). -/
theorem c5_alarm_amended (A : List String → Bool) (s : Stats)
    (rs : List DetectionRecord) :
    (rs ≠ [] → (analyzeResults rs).overall_status = "ok" →
        (update_detection_results A s (some rs)).completed = true)
    ∧ (rs ≠ [] → (analyzeResults rs).overall_status ≠ "ok" →
        (update_detection_results A s (some rs)).stats.total_detections
            = s.total_detections + 1
        ∧ (update_detection_results A s (some rs)).stats.ng_count
            = s.ng_count + 1
        ∧ (update_detection_results A s (some rs)).alarms
            = [(analyzeResults rs).defect_reasons]
        ∧ (A (analyzeResults rs).defect_reasons = true →
            (update_detection_results A s (some rs)).completed = false)
        ∧ (A (analyzeResults rs).defect_reasons = false →
            (update_detection_results A s (some rs)).completed = true)) := by
  constructor
  · intro hne hok
    obtain ⟨a, as, rfl⟩ := List.exists_cons_of_ne_nil hne
    by_cases h2 : s.batch_current + 1 = 20
    · rw [update_cons_ok_roll A s a as hok h2]
    · rw [update_cons_ok_noroll A s a as hok h2]
  · intro hne hng
    obtain ⟨a, as, rfl⟩ := List.exists_cons_of_ne_nil hne
    rw [update_cons_ng A s a as hng]
    refine ⟨rfl, rfl, rfl, fun hA => by simp [hA], fun hA => by simp [hA]⟩

/-- C5 amended witness: with an always-raising alarm, an ok inspection at
`batch_current = 19` (batch-full alarm fires and raises) still completes,
while an ng inspection does not. -/
theorem c5_alarm_amended_witness :
    (update_detection_results (fun _ => true) ⟨0, 0, 0, 19, 0⟩
        (some [⟨⟨some "ok", []⟩⟩])).completed = true
    ∧ (update_detection_results (fun _ => true) initStats
        (some [⟨⟨some "ng", ["标签不良"]⟩⟩])).completed = false :=
  ⟨(c5_alarm_amended (fun _ => true) ⟨0, 0, 0, 19, 0⟩
        [⟨⟨some "ok", []⟩⟩]).1 (by decide) (by decide),
   (((c5_alarm_amended (fun _ => true) initStats
        [⟨⟨some "ng", ["标签不良"]⟩⟩]).2 (by decide) (by decide)).2.2.2.1
     (by decide))⟩

/-- C6: for a non-empty record list, the aggregate verdict is ng exactly when
some record's analysis status is ng (and ok otherwise), and the defect-reason
list is the concatenation of all records' reasons with duplicates removed:
it has no duplicates, is a subsequence of the concatenation (first-seen order
preserved) and has the same members as the concatenation. -/
theorem c6_aggregate_verdict (rs : List DetectionRecord) (h : rs ≠ []) :
    ((analyzeResults rs).overall_status = "ng" ↔
        ∃ r ∈ rs, r.analysis.overall_status = some "ng")
    ∧ ((¬ ∃ r ∈ rs, r.analysis.overall_status = some "ng") →
        (analyzeResults rs).overall_status = "ok")
    ∧ (analyzeResults rs).defect_reasons
        = dedupFirst (rs.flatMap fun r => r.analysis.defect_reasons)
    ∧ (analyzeResults rs).defect_reasons.Nodup
    ∧ (analyzeResults rs).defect_reasons.Sublist
        (rs.flatMap fun r => r.analysis.defect_reasons)
    ∧ ∀ x, x ∈ (analyzeResults rs).defect_reasons ↔
        x ∈ rs.flatMap fun r => r.analysis.defect_reasons := by
  have hmem : some "ng" ∈ rs.map (fun r => r.analysis.overall_status) ↔
      ∃ r ∈ rs, r.analysis.overall_status = some "ng" := by
    simp [List.mem_map]
  have hstat : (analyzeResults rs).overall_status =
      (if some "ng" ∈ rs.map (fun r => r.analysis.overall_status)
       then "ng" else "ok") := rfl
  have hdr : (analyzeResults rs).defect_reasons
      = dedupFirst (rs.flatMap fun r => r.analysis.defect_reasons) := rfl
  refine ⟨?_, ?_, hdr, ?_, ?_, ?_⟩
  · rw [hstat]
    by_cases hc : some "ng" ∈ rs.map (fun r => r.analysis.overall_status)
    · rw [if_pos hc]
      exact iff_of_true rfl (hmem.mp hc)
    · rw [if_neg hc]
      exact iff_of_false (by decide) (fun hx => hc (hmem.mpr hx))
  · intro hno
    rw [hstat, if_neg (fun hc => hno (hmem.mp hc))]
  · rw [hdr]; exact dedupFirst_nodup _
  · rw [hdr]; exact dedupFirst_sublist _
  · intro x; rw [hdr]; exact dedupFirst_mem _ x

/-- C6 witness at one ng record with a duplicated reason. -/
theorem c6_aggregate_verdict_witness :
    ([⟨⟨some "ng", ["商标缺失", "商标缺失"]⟩⟩] : List DetectionRecord) ≠ []
    ∧ (analyzeResults [⟨⟨some "ng", ["商标缺失", "商标缺失"]⟩⟩]).defect_reasons.Nodup :=
  ⟨by decide,
   (c6_aggregate_verdict [⟨⟨some "ng", ["商标缺失", "商标缺失"]⟩⟩]
      (by decide)).2.2.2.1⟩

/-- C7: a Detector failure inside `perform_detection` is converted into an
`ErrorEvent` (it does not propagate: the worker returns an event); handling
that event leaves the statistics (hence all five counters) unchanged,
surfaces the message in the log and status, fires no alarm, and re-enables
the detect button. -/
theorem c7_error_path (img : Frame)
    (det : Frame → Except String (List DetectionRecord)) (msg : String)
    (h : det img = .error msg) (A : List String → Bool) (w : WindowState) :
    perform_detection img det = .errorEvent ("检测失败: " ++ msg)
    ∧ (customEvent A w (.errorEvent ("检测失败: " ++ msg))).window.stats = w.stats
    ∧ (customEvent A w (.errorEvent ("检测失败: " ++ msg))).window.detect_btn_enabled
        = true
    ∧ (customEvent A w (.errorEvent ("检测失败: " ++ msg))).window.status_message
        = "检测失败"
    ∧ (customEvent A w (.errorEvent ("检测失败: " ++ msg))).logs
        = ["检测失败: " ++ msg]
    ∧ (customEvent A w (.errorEvent ("检测失败: " ++ msg))).alarms = [] := by
  refine ⟨?_, rfl, rfl, rfl, rfl, rfl⟩
  unfold perform_detection
  rw [h]

/-- C7 witness at a concrete failing Detector. -/
theorem c7_error_path_witness :
    perform_detection ⟨0⟩ (fun _ => Except.error "相机断开")
        = DetEvent.errorEvent ("检测失败: " ++ "相机断开")
    ∧ (customEvent (fun _ => false) ⟨initStats, false, "状态: 检测中"⟩
        (.errorEvent ("检测失败: " ++ "相机断开"))).window.detect_btn_enabled
        = true :=
  ⟨(c7_error_path ⟨0⟩ (fun _ => Except.error "相机断开") "相机断开" rfl
      (fun _ => false) ⟨initStats, false, "状态: 检测中"⟩).1,
   (c7_error_path ⟨0⟩ (fun _ => Except.error "相机断开") "相机断开" rfl
      (fun _ => false) ⟨initStats, false, "状态: 检测中"⟩).2.2.1⟩

/-- C8: disarming is idempotent: from any armed state, disarming twice in a
row yields the same state as disarming once, the buffer is cleared, detection
is disabled, and neither call emits a detection request. -/
theorem c8_disarm_idempotent (s : SensorState)
    (h : s.detecting_enabled = true) :
    (disarm (disarm s).1).1 = (disarm s).1
    ∧ (disarm s).2 = 0
    ∧ (disarm (disarm s).1).2 = 0
    ∧ (disarm s).1.buffer = ""
    ∧ (disarm s).1.detecting_enabled = false :=
  ⟨rfl, rfl, rfl, rfl, rfl⟩

/-- C8 witness at an armed state with pulse text pending and the timer
running. -/
theorem c8_disarm_idempotent_witness :
    (disarm (disarm ⟨true, "01", true⟩).1).1 = (disarm ⟨true, "01", true⟩).1
    ∧ (disarm (⟨true, "01", true⟩ : SensorState)).2 = 0 :=
  ⟨(c8_disarm_idempotent ⟨true, "01", true⟩ rfl).1,
   (c8_disarm_idempotent ⟨true, "01", true⟩ rfl).2.1⟩

/-- C9 counterexample: `CameraThread.start_camera` has no running-flag guard:
called while the source is already running it replaces the device handle
(`self.cap = cv2.VideoCapture(0)` runs unconditionally), so it is not a no-op
with the device handle unchanged. -/
theorem c9_camera_counterexample :
    (start_camera 1 true { running := true, cap := some 0 }).1.cap = some 1
    ∧ (start_camera 1 true { running := true, cap := some 0 }).1.cap
        ≠ some 0 := by decide

/-- C9 amended: `start_camera` reports failure (returns `false`) without
throwing when the device is unavailable; the running-flag guard lives in
`toggle_camera`, which while running invokes `stop_camera` and never
`start_camera`; and `start_camera` itself always replaces the stored device
handle, running or not. -/
theorem c9_camera_amended (h : Nat) (o : Bool) (s : CameraState) :
    start_camera h false s = ({ s with cap := some h }, false)
    ∧ (s.running = true → toggle_camera h o s = stop_camera s)
    ∧ (start_camera h o s).1.cap = some h := by
  refine ⟨rfl, ?_, ?_⟩
  · intro hr
    unfold toggle_camera
    rw [hr]
    rfl
  · cases o
    · rfl
    · rfl

/-- C9 witness: with the device available, toggling while running stops the
camera, and starting with the device unavailable reports failure. -/
theorem c9_camera_amended_witness :
    start_camera 1 false ⟨false, none⟩ = (⟨false, some 1⟩, false)
    ∧ toggle_camera 1 true ⟨true, some 0⟩ = stop_camera ⟨true, some 0⟩ :=
  ⟨(c9_camera_amended 1 true ⟨false, none⟩).1,
   (c9_camera_amended 1 true ⟨true, some 0⟩).2.1 rfl⟩

/-- C10: a sensor-triggered or foot-signal detection requested while no frame
has been published (`current_image` is `None`) posts no event at all, so the
control context processes nothing: the window state (all counters included)
is unchanged and no alarm fires. -/
theorem c10_no_frame_silent
    (det : Frame → Except String (List DetectionRecord))
    (A : List String → Bool) (w : WindowState) :
    trigger_sensor_detection none det = none
    ∧ on_foot_signal none det = none
    ∧ handlePosted A w (trigger_sensor_detection none det)
        = { window := w, alarms := [], logs := [] }
    ∧ (handlePosted A w (trigger_sensor_detection none det)).window.stats
        = w.stats
    ∧ (handlePosted A w (trigger_sensor_detection none det)).alarms = [] :=
  ⟨rfl, rfl, rfl, rfl, rfl⟩
